import Mathlib

/-!
Shallow embedding of the dual-backend data access layer (src/redis.rs,
src/scylla.rs, src/handler.rs): a volatile key/value store client (Redis),
a structured store client (Scylla) with a pluggable query resolver, and a
unified Handler coordinating both.  Network backends are modelled as
explicit response environments; each operation returns the commands it
issued (its effect trace) together with its result, mirroring the Rust
control flow statement by statement.
-/

variable {α ρ : Type}

/-- Embedding of Rust's `Result::map_err`. -/
def mapErr {ε δ σ : Type} (f : ε → δ) : Except ε σ → Except δ σ
  | Except.error e => Except.error (f e)
  | Except.ok a => Except.ok a

/-- Error taxonomy of the volatile store client (`RedisError`, src/redis.rs). -/
inductive RedisError
  | CreateClientError (detail : String)
  | CreateConnectionError (detail : String)
  | CreateError (detail : String)
  | DeleteError (detail : String)
  | GetError (detail : String)
  | SerializeError (detail : String)
  deriving Repr, DecidableEq

/-- Commands a volatile store client issues on its connection. -/
inductive RedisCommand
  | setEx (key : String) (value : List String) (expiration : Nat)
  | del (key : String)
  | getKey (key : String)
  deriving Repr, DecidableEq

/-- The volatile store client (`Redis`, src/redis.rs): the behaviour of its
multiplexed connection, given as the backend's response to each command.
Failures carry the driver error rendered to a string. -/
structure Redis (α : Type) where
  set_ex_resp : String → List String → Nat → Except String Unit
  del_resp : String → Except String Unit
  get_resp : String → Except String α

/-- The `RedisData` capability (src/redis.rs): cache key, declared default
time-to-live, and serialization to the wire representation. -/
structure RedisData (α : Type) where
  key : α → String
  default_expiration : Nat
  to_redis_args : α → List String

/-- Embedding of `Redis::create` (src/redis.rs lines 52-67): substitute the
record's default expiration for a zero `expiration`, then `SETEX` the
serialized record under its key; a backend failure maps to `CreateError`.
Returns the issued command together with the result. -/
def Redis.create (self : Redis α) (rd : RedisData α) (data : α) (expiration : Nat) :
    RedisCommand × Except RedisError Unit :=
  let expiration_time := if expiration = 0 then rd.default_expiration else expiration
  (RedisCommand.setEx (rd.key data) (rd.to_redis_args data) expiration_time,
    mapErr RedisError.CreateError
      (self.set_ex_resp (rd.key data) (rd.to_redis_args data) expiration_time))

/-- Embedding of `Redis::delete` (src/redis.rs lines 69-78): `DEL` the
record's own key; a backend failure maps to `DeleteError`. -/
def Redis.delete (self : Redis α) (rd : RedisData α) (data : α) :
    RedisCommand × Except RedisError Unit :=
  (RedisCommand.del (rd.key data),
    mapErr RedisError.DeleteError (self.del_resp (rd.key data)))

/-- Embedding of `Redis::delete_by_key` (src/redis.rs lines 80-86): `DEL` an
explicit key; a backend failure maps to `DeleteError`. -/
def Redis.delete_by_key (self : Redis α) (key : String) :
    RedisCommand × Except RedisError Unit :=
  (RedisCommand.del key, mapErr RedisError.DeleteError (self.del_resp key))

/-- Embedding of `Redis::update` (src/redis.rs lines 88-93): literally
`self.create(data, 0)`. -/
def Redis.update (self : Redis α) (rd : RedisData α) (data : α) :
    RedisCommand × Except RedisError Unit :=
  Redis.create self rd data 0

/-- Embedding of `Redis::get` (src/redis.rs lines 95-104): `GET` the key and
decode; any failure maps to `GetError`. -/
def Redis.get (self : Redis α) (key : String) :
    RedisCommand × Except RedisError α :=
  (RedisCommand.getKey key, mapErr RedisError.GetError (self.get_resp key))

/-- Environment for `Redis::create_connections` (src/redis.rs lines 38-50):
the outcome of `Client::open` and of `get_multiplexed_async_connection`
(the latter yielding the connection behaviour on success). -/
structure RedisSetupEnv (α : Type) where
  open_client : Except String Unit
  get_multiplexed_async_connection : Except String (Redis α)

/-- Embedding of `Redis::create_connections`: open the client handle
(`CreateClientError` on failure), then establish the multiplexed
connection (`CreateConnectionError` on failure). -/
def Redis.create_connections (env : RedisSetupEnv α) : Except RedisError (Redis α) :=
  match env.open_client with
  | Except.error e => Except.error (RedisError.CreateClientError e)
  | Except.ok _ =>
    match env.get_multiplexed_async_connection with
    | Except.error e => Except.error (RedisError.CreateConnectionError e)
    | Except.ok conn => Except.ok conn

/-- Error taxonomy of the structured store client (`ScyllaError`,
src/scylla.rs lines 16-38). -/
inductive ScyllaError
  | CreateSessionError (detail : String)
  | QueryPreparationError (detail : String)
  | QueryError (detail : String)
  | InvalidQuery
  | CreateError (detail : String)
  | DeleteError (detail : String)
  | GetError (detail : String)
  | RowError
  | FetchError (detail : String)
  | UpdateError (detail : String)
  deriving Repr, DecidableEq

/-- Operation kinds routed through the query resolver (`Kind`,
src/scylla.rs lines 40-46). -/
inductive Kind
  | Create
  | Update
  | Delete
  | Get
  | Fetch
  deriving Repr, DecidableEq

/-- A resolved query handle (`Query`, src/scylla.rs lines 48-51): a
precompiled statement reference or raw statement text. -/
inductive Query
  | Prepared (statement : String)
  | Raw (statement : String)
  deriving Repr, DecidableEq

/-- The `ScyllaData` capability (src/scylla.rs lines 53-55): the record's
unique identifier, plus the `FromRow` decoding of a backend row (`none`
models a `FromRowError`). -/
structure ScyllaData (α ρ : Type) where
  id : α → String
  from_row : ρ → Option α

/-- Statement parameters bound at execution time: the full record
(`create`), a one-tuple of the record's id (`delete`, `update`, `get`),
or caller-supplied serialized values (`fetch`). -/
inductive BoundParams (α : Type)
  | fullRecord (record : α)
  | idOnly (id : String)
  | rawValues (values : List String)
  deriving Repr

/-- A call placed on the session: `execute` of a prepared statement or
`query` of raw statement text, with its bound parameters. -/
inductive SessionCall (α : Type)
  | execute (statement : String) (params : BoundParams α)
  | query (statement : String) (params : BoundParams α)
  deriving Repr

/-- The parameters bound by a session call. -/
def callParams : SessionCall α → BoundParams α
  | SessionCall.execute _ p => p
  | SessionCall.query _ p => p

/-- A driver query result: `rows` is `some` when the response is of rows
kind (so `QueryResult::rows()` succeeds) and `none` otherwise. -/
structure QueryResult (ρ : Type) where
  rows : Option (List ρ)

/-- The structured store client (`Scylla<Queries>`, src/scylla.rs lines
68-74), specialised to one record type: the resolver's `get_query` for
that type, and the session behaviour (the backend response to each call,
failures rendered to a string). -/
structure Scylla (α ρ : Type) where
  get_query : Kind → Except ScyllaError Query
  session : SessionCall α → Except String (QueryResult ρ)

/-- Embedding of `Scylla::create` (src/scylla.rs lines 101-131): resolve
the Create handle (`InvalidQuery` if resolution fails, nothing executed);
execute the prepared statement bound to the full record (`CreateError` on
failure) or the raw text bound to the full record (`QueryError` on
failure).  Returns the issued session calls together with the result. -/
def Scylla.create (self : Scylla α ρ) (data : α) :
    List (SessionCall α) × Except ScyllaError Unit :=
  match self.get_query Kind.Create with
  | Except.error _ => ([], Except.error ScyllaError.InvalidQuery)
  | Except.ok (Query.Prepared s) =>
    let call := SessionCall.execute s (BoundParams.fullRecord data)
    ([call],
      match self.session call with
      | Except.error e => Except.error (ScyllaError.CreateError e)
      | Except.ok _ => Except.ok ())
  | Except.ok (Query.Raw s) =>
    let call := SessionCall.query s (BoundParams.fullRecord data)
    ([call],
      match self.session call with
      | Except.error e => Except.error (ScyllaError.QueryError e)
      | Except.ok _ => Except.ok ())

/-- Embedding of `Scylla::delete` (src/scylla.rs lines 133-163): resolve
the Delete handle (`InvalidQuery` if resolution fails), then execute bound
to the one-tuple of the record's id; both the prepared and the raw path
map execution failure to `DeleteError`. -/
def Scylla.delete (self : Scylla α ρ) (sd : ScyllaData α ρ) (data : α) :
    List (SessionCall α) × Except ScyllaError Unit :=
  match self.get_query Kind.Delete with
  | Except.error _ => ([], Except.error ScyllaError.InvalidQuery)
  | Except.ok (Query.Prepared s) =>
    let call := SessionCall.execute s (BoundParams.idOnly (sd.id data))
    ([call],
      match self.session call with
      | Except.error e => Except.error (ScyllaError.DeleteError e)
      | Except.ok _ => Except.ok ())
  | Except.ok (Query.Raw s) =>
    let call := SessionCall.query s (BoundParams.idOnly (sd.id data))
    ([call],
      match self.session call with
      | Except.error e => Except.error (ScyllaError.DeleteError e)
      | Except.ok _ => Except.ok ())

/-- Embedding of `Scylla::update` (src/scylla.rs lines 234-264): identical
to `delete` except for resolving `Kind::Update`; both execution paths map
failure to `DeleteError` (not `UpdateError`). -/
def Scylla.update (self : Scylla α ρ) (sd : ScyllaData α ρ) (data : α) :
    List (SessionCall α) × Except ScyllaError Unit :=
  match self.get_query Kind.Update with
  | Except.error _ => ([], Except.error ScyllaError.InvalidQuery)
  | Except.ok (Query.Prepared s) =>
    let call := SessionCall.execute s (BoundParams.idOnly (sd.id data))
    ([call],
      match self.session call with
      | Except.error e => Except.error (ScyllaError.DeleteError e)
      | Except.ok _ => Except.ok ())
  | Except.ok (Query.Raw s) =>
    let call := SessionCall.query s (BoundParams.idOnly (sd.id data))
    ([call],
      match self.session call with
      | Except.error e => Except.error (ScyllaError.DeleteError e)
      | Except.ok _ => Except.ok ())

/-- Embedding of `Scylla::get` (src/scylla.rs lines 165-192): resolve the
Get handle, execute bound to the id (`GetError` on execution failure),
take the first row (`RowError` when absent) and decode it (`RowError` when
decoding fails). -/
def Scylla.get (self : Scylla α ρ) (sd : ScyllaData α ρ) (id : String) :
    Except ScyllaError α :=
  match self.get_query Kind.Get with
  | Except.error _ => Except.error ScyllaError.InvalidQuery
  | Except.ok q =>
    let result := match q with
      | Query.Prepared s =>
        mapErr ScyllaError.GetError
          (self.session (SessionCall.execute s (BoundParams.idOnly id)))
      | Query.Raw s =>
        mapErr ScyllaError.GetError
          (self.session (SessionCall.query s (BoundParams.idOnly id)))
    match result with
    | Except.error e => Except.error e
    | Except.ok qres =>
      match qres.rows with
      | none => Except.error ScyllaError.RowError
      | some [] => Except.error ScyllaError.RowError
      | some (first_row :: _) =>
        match sd.from_row first_row with
        | none => Except.error ScyllaError.RowError
        | some data => Except.ok data

/-- Embedding of the iterator pipeline `.take(n).collect::<Result<Vec,_>>()`
over decoded rows: decode each row of the (already truncated) list in
order, stopping at the first decode failure. -/
def collectRows (from_row : ρ → Option α) : List ρ → Option (List α)
  | [] => some []
  | r :: rest =>
    match from_row r with
    | none => none
    | some a =>
      match collectRows from_row rest with
      | none => none
      | some tail => some (a :: tail)

/-- The execution step of `Scylla::fetch`: execute the resolved handle with
the caller-supplied serialized values, mapping failure to `FetchError`. -/
def Scylla.fetchExecute (self : Scylla α ρ) (q : Query) (query_data : List String) :
    Except ScyllaError (QueryResult ρ) :=
  match q with
  | Query.Prepared s =>
    mapErr ScyllaError.FetchError
      (self.session (SessionCall.execute s (BoundParams.rawValues query_data)))
  | Query.Raw s =>
    mapErr ScyllaError.FetchError
      (self.session (SessionCall.query s (BoundParams.rawValues query_data)))

/-- Embedding of `Scylla::fetch` (src/scylla.rs lines 194-232): a zero
`ammount` becomes the built-in default 10; resolve the Fetch handle
(`InvalidQuery` on failure); execute (`FetchError` on failure);
`result.rows()` failing is `RowError`; then decode the first `ammount`
typed rows, any decode failure among them aborting with `RowError`. -/
def Scylla.fetch (self : Scylla α ρ) (sd : ScyllaData α ρ)
    (query_data : List String) (ammount : Nat) :
    Except ScyllaError (List α) :=
  let ammount := if ammount = 0 then 10 else ammount
  match self.get_query Kind.Fetch with
  | Except.error _ => Except.error ScyllaError.InvalidQuery
  | Except.ok q =>
    match Scylla.fetchExecute self q query_data with
    | Except.error e => Except.error e
    | Except.ok qres =>
      match qres.rows with
      | none => Except.error ScyllaError.RowError
      | some raw_rows =>
        match collectRows sd.from_row (raw_rows.take ammount) with
        | none => Except.error ScyllaError.RowError
        | some typed_rows => Except.ok typed_rows

/-- One step of `Scylla::create_connections` as recorded in its trace. -/
inductive SetupStep
  | buildSession
  | createKeyspace
  | createTables
  | prepareQueries
  deriving Repr, DecidableEq

/-- Environment for `Scylla::create_connections` (src/scylla.rs lines
80-99): the outcome of the session builder (yielding the session behaviour
on success), and of the resolver's `create_keyspace`, `create_tables` and
`prepare_queries` steps (the last yielding the resolver on success). -/
structure ScyllaSetupEnv (α ρ : Type) where
  build_session : Except String (SessionCall α → Except String (QueryResult ρ))
  create_keyspace : Except ScyllaError Unit
  create_tables : Except ScyllaError Unit
  prepare_queries : Except ScyllaError (Kind → Except ScyllaError Query)

/-- Embedding of `Scylla::create_connections`: build the session (failure
wrapped in `CreateSessionError`), then run `create_keyspace`,
`create_tables` and `prepare_queries` in that order, each failure
propagated unchanged by `?`.  Returns the steps attempted together with
the result. -/
def Scylla.create_connections (env : ScyllaSetupEnv α ρ) :
    List SetupStep × Except ScyllaError (Scylla α ρ) :=
  match env.build_session with
  | Except.error e =>
    ([SetupStep.buildSession], Except.error (ScyllaError.CreateSessionError e))
  | Except.ok session =>
    match env.create_keyspace with
    | Except.error e =>
      ([SetupStep.buildSession, SetupStep.createKeyspace], Except.error e)
    | Except.ok _ =>
      match env.create_tables with
      | Except.error e =>
        ([SetupStep.buildSession, SetupStep.createKeyspace, SetupStep.createTables],
          Except.error e)
      | Except.ok _ =>
        match env.prepare_queries with
        | Except.error e =>
          ([SetupStep.buildSession, SetupStep.createKeyspace, SetupStep.createTables,
            SetupStep.prepareQueries], Except.error e)
        | Except.ok queries =>
          ([SetupStep.buildSession, SetupStep.createKeyspace, SetupStep.createTables,
            SetupStep.prepareQueries], Except.ok ⟨queries, session⟩)

/-- The Handler's umbrella error (`HandlerError`, src/handler.rs lines
10-25): one variant per store, a transparent re-wrap via `From`. -/
inductive HandlerError
  | RedisError (error : RedisError)
  | ScyllaError (error : ScyllaError)
  deriving Repr, DecidableEq

/-- The unified Handler (src/handler.rs lines 32-38): owns the volatile
store client and (a shared reference to) the structured store client. -/
structure Handler (α ρ : Type) where
  redis : Redis α
  scylla : Scylla α ρ

/-- A side effect issued by the Handler on one of its two stores. -/
inductive Effect (α : Type)
  | scylla (call : SessionCall α)
  | redis (command : RedisCommand)
  deriving Repr

/-- Embedding of `Handler::create` (src/handler.rs lines 61-69):
`self.scylla.create(data).await?` then `self.redis.create(data,
expiration).await?`, each error wrapped into its `HandlerError` variant by
`?`.  Returns the store effects issued, in order, with the result. -/
def Handler.create (self : Handler α ρ) (rd : RedisData α) (data : α) (expiration : Nat) :
    List (Effect α) × Except HandlerError Unit :=
  let scylla_result := Scylla.create self.scylla data
  match scylla_result.2 with
  | Except.error e =>
    (scylla_result.1.map Effect.scylla, Except.error (HandlerError.ScyllaError e))
  | Except.ok _ =>
    let redis_result := Redis.create self.redis rd data expiration
    match redis_result.2 with
    | Except.error e =>
      (scylla_result.1.map Effect.scylla ++ [Effect.redis redis_result.1],
        Except.error (HandlerError.RedisError e))
    | Except.ok _ =>
      (scylla_result.1.map Effect.scylla ++ [Effect.redis redis_result.1],
        Except.ok ())

/-- Embedding of `Handler::delete` (src/handler.rs lines 71-79):
`self.scylla.delete(data).await?` then `self.redis.delete(data).await?`. -/
def Handler.delete (self : Handler α ρ) (sd : ScyllaData α ρ) (rd : RedisData α) (data : α) :
    List (Effect α) × Except HandlerError Unit :=
  let scylla_result := Scylla.delete self.scylla sd data
  match scylla_result.2 with
  | Except.error e =>
    (scylla_result.1.map Effect.scylla, Except.error (HandlerError.ScyllaError e))
  | Except.ok _ =>
    let redis_result := Redis.delete self.redis rd data
    match redis_result.2 with
    | Except.error e =>
      (scylla_result.1.map Effect.scylla ++ [Effect.redis redis_result.1],
        Except.error (HandlerError.RedisError e))
    | Except.ok _ =>
      (scylla_result.1.map Effect.scylla ++ [Effect.redis redis_result.1],
        Except.ok ())

/-- Embedding of `Handler::udpate` (src/handler.rs lines 112-120, the
method name's typo is the source's): `self.scylla.update(data).await?`
then `self.redis.update(data).await?`. -/
def Handler.udpate (self : Handler α ρ) (sd : ScyllaData α ρ) (rd : RedisData α) (data : α) :
    List (Effect α) × Except HandlerError Unit :=
  let scylla_result := Scylla.update self.scylla sd data
  match scylla_result.2 with
  | Except.error e =>
    (scylla_result.1.map Effect.scylla, Except.error (HandlerError.ScyllaError e))
  | Except.ok _ =>
    let redis_result := Redis.update self.redis rd data
    match redis_result.2 with
    | Except.error e =>
      (scylla_result.1.map Effect.scylla ++ [Effect.redis redis_result.1],
        Except.error (HandlerError.RedisError e))
    | Except.ok _ =>
      (scylla_result.1.map Effect.scylla ++ [Effect.redis redis_result.1],
        Except.ok ())

/-- Which branch of the `select!` race concludes first. -/
inductive RaceWinner
  | scylla
  | redis
  deriving Repr, DecidableEq

/-- First-completion selection of `tokio::select!` over two branches,
given each branch's completion time; a simultaneous completion is resolved
by the runtime's nondeterministic choice `tieBreak`. -/
def selectWinner (scyllaTime redisTime : Nat) (tieBreak : RaceWinner) : RaceWinner :=
  if scyllaTime < redisTime then RaceWinner.scylla
  else if redisTime < scyllaTime then RaceWinner.redis
  else tieBreak

/-- Embedding of `Handler::get` (src/handler.rs lines 81-98): start the
structured-store get and the volatile-store get, race them with
`select!`, and return the first-completing branch's result wrapped into
its `HandlerError` variant; the losing branch is abandoned.  Completion
times and the tie-break stand for the runtime schedule. -/
def Handler.get (self : Handler α ρ) (sd : ScyllaData α ρ)
    (scylla_id redis_key : String)
    (scyllaTime redisTime : Nat) (tieBreak : RaceWinner) :
    Except HandlerError α :=
  let scylla_future := Scylla.get self.scylla sd scylla_id
  let redis_future := (Redis.get self.redis redis_key).2
  match selectWinner scyllaTime redisTime tieBreak with
  | RaceWinner.scylla => mapErr HandlerError.ScyllaError scylla_future
  | RaceWinner.redis => mapErr HandlerError.RedisError redis_future

/-- Embedding of `Handler::fetch` (src/handler.rs lines 100-110):
delegates to the structured store only. -/
def Handler.fetch (self : Handler α ρ) (sd : ScyllaData α ρ)
    (query_data : List String) (ammount : Nat) :
    Except HandlerError (List α) :=
  mapErr HandlerError.ScyllaError (Scylla.fetch self.scylla sd query_data ammount)

/-- A connection-establishment step of `Handler::create_connections`. -/
inductive ConnStep
  | redisConnect
  | scyllaConnect
  deriving Repr, DecidableEq

/-- Embedding of `Handler::create_connections` (src/handler.rs lines
44-59): `Redis::create_connections(...).await?` first, then
`Scylla::create_connections(...).await?`, each failure wrapped into its
`HandlerError` variant; the Handler is built from both on success.
Returns which connection steps were attempted, in order. -/
def Handler.create_connections (renv : RedisSetupEnv α) (senv : ScyllaSetupEnv α ρ) :
    List ConnStep × Except HandlerError (Handler α ρ) :=
  match Redis.create_connections renv with
  | Except.error e =>
    ([ConnStep.redisConnect], Except.error (HandlerError.RedisError e))
  | Except.ok redis =>
    match (Scylla.create_connections senv).2 with
    | Except.error e =>
      ([ConnStep.redisConnect, ConnStep.scyllaConnect],
        Except.error (HandlerError.ScyllaError e))
    | Except.ok scylla =>
      ([ConnStep.redisConnect, ConnStep.scyllaConnect],
        Except.ok ⟨redis, scylla⟩)

/-- A concrete `ScyllaData` instance for witnesses: records and rows are
naturals, row 0 fails to decode. -/
def exSd : ScyllaData Nat Nat where
  id := fun n => toString n
  from_row := fun r => if r = 0 then none else some r

/-- A concrete `RedisData` instance with a nonzero default expiration. -/
def exRd : RedisData Nat where
  key := fun n => toString n
  default_expiration := 60
  to_redis_args := fun n => [toString n]

/-- A concrete `RedisData` instance whose declared default expiration is 0. -/
def exRdZero : RedisData Nat where
  key := fun _ => "k"
  default_expiration := 0
  to_redis_args := fun _ => ["v"]

/-- A volatile store whose backend accepts every command. -/
def exRedis : Redis Nat where
  set_ex_resp := fun _ _ _ => Except.ok ()
  del_resp := fun _ => Except.ok ()
  get_resp := fun _ => Except.ok 1

/-- A volatile store whose backend rejects every command. -/
def exRedisDown : Redis Nat where
  set_ex_resp := fun _ _ _ => Except.error "redis down"
  del_resp := fun _ => Except.error "redis down"
  get_resp := fun _ => Except.error "redis down"

/-- A structured store resolving every kind to raw text, whose session
answers every call with the rows [1, 0]. -/
def exScyllaRaw : Scylla Nat Nat where
  get_query := fun _ => Except.ok (Query.Raw "Q")
  session := fun _ => Except.ok ⟨some [1, 0]⟩

/-- A structured store whose resolver has no registered query. -/
def exScyllaNoQuery : Scylla Nat Nat where
  get_query := fun _ => Except.error (ScyllaError.QueryPreparationError "missing")
  session := fun _ => Except.ok ⟨some []⟩

/-- A structured store resolving to prepared statements, whose session
rejects every call. -/
def exScyllaExecFail : Scylla Nat Nat where
  get_query := fun _ => Except.ok (Query.Prepared "P")
  session := fun _ => Except.error "scylla down"

/-- A Redis setup environment whose client handle cannot be opened. -/
def exRenvBad : RedisSetupEnv Nat where
  open_client := Except.error "redis refused"
  get_multiplexed_async_connection := Except.error "redis refused"

/-- A Redis setup environment that succeeds, yielding `exRedis`. -/
def exRenvOk : RedisSetupEnv Nat where
  open_client := Except.ok ()
  get_multiplexed_async_connection := Except.ok exRedis

/-- A Scylla setup environment whose session builder fails. -/
def exSenvBad : ScyllaSetupEnv Nat Nat where
  build_session := Except.error "scylla refused"
  create_keyspace := Except.ok ()
  create_tables := Except.ok ()
  prepare_queries := Except.error ScyllaError.InvalidQuery

/-- A Scylla setup environment where every step succeeds. -/
def exSenvOk : ScyllaSetupEnv Nat Nat where
  build_session := Except.ok (fun _ => Except.ok ⟨some [1, 0]⟩)
  create_keyspace := Except.ok ()
  create_tables := Except.ok ()
  prepare_queries := Except.ok (fun _ => Except.ok (Query.Raw "Q"))

/-- A Scylla setup environment whose keyspace-provisioning step fails with
a `QueryError`. -/
def exSenvKeyspaceFail : ScyllaSetupEnv Nat Nat where
  build_session := Except.ok (fun _ => Except.ok ⟨some []⟩)
  create_keyspace := Except.error (ScyllaError.QueryError "keyspace boom")
  create_tables := Except.ok ()
  prepare_queries := Except.ok (fun _ => Except.ok (Query.Raw "Q"))

/-- C9: the volatile store's `update(record)` is extensionally equal to
`create(record, 0)`: same issued command (a re-set under the record's key
with the record's default time-to-live) and same result in every case. -/
theorem redis_update_eq_create (self : Redis α) (rd : RedisData α) (data : α) :
    Redis.update self rd data = Redis.create self rd data 0 ∧
    (Redis.update self rd data).1 =
      RedisCommand.setEx (rd.key data) (rd.to_redis_args data) rd.default_expiration ∧
    (Redis.update self rd data).2 =
      mapErr RedisError.CreateError
        (self.set_ex_resp (rd.key data) (rd.to_redis_args data) rd.default_expiration) :=
  ⟨rfl, rfl, rfl⟩

/-- C10: the volatile store's `delete(record)` is extensionally equal to
`delete_by_key` applied to the record's own key: the same `DEL` command is
issued and any backend failure maps to the same `DeleteError`. -/
theorem redis_delete_eq_delete_by_key (self : Redis α) (rd : RedisData α) (data : α) :
    Redis.delete self rd data = Redis.delete_by_key self (rd.key data) ∧
    (Redis.delete self rd data).1 = RedisCommand.del (rd.key data) ∧
    (Redis.delete self rd data).2 =
      mapErr RedisError.DeleteError (self.del_resp (rd.key data)) :=
  ⟨rfl, rfl, rfl⟩

/-- C5 counterexample: for a record type whose declared default
time-to-live is 0, `create(record, 0)` issues `SETEX` with the literal
TTL 0, contradicting the claim that the literal TTL 0 is never used. -/
theorem redis_create_ttl_counterexample :
    exRdZero.default_expiration = 0 ∧
    (Redis.create exRedis exRdZero 7 0).1 = RedisCommand.setEx "k" ["v"] 0 :=
  ⟨rfl, rfl⟩

/-- C5 (amended): `create(record, expiration)` stores under the record's
key with the record's default time-to-live when `expiration` is 0 and
with exactly `expiration` otherwise; the literal TTL 0 is never used
provided the record's declared default time-to-live is nonzero. -/
theorem redis_create_expiration (self : Redis α) (rd : RedisData α)
    (data : α) (expiration : Nat) :
    (expiration = 0 →
      (Redis.create self rd data expiration).1 =
        RedisCommand.setEx (rd.key data) (rd.to_redis_args data) rd.default_expiration) ∧
    (expiration ≠ 0 →
      (Redis.create self rd data expiration).1 =
        RedisCommand.setEx (rd.key data) (rd.to_redis_args data) expiration) ∧
    (∀ k v t, rd.default_expiration ≠ 0 →
      (Redis.create self rd data expiration).1 = RedisCommand.setEx k v t →
      t ≠ 0) := by
  refine ⟨?_, ?_, ?_⟩
  · intro h
    simp [Redis.create, h]
  · intro h
    simp [Redis.create, h]
  · intro k v t hd h ht
    subst ht
    by_cases he : expiration = 0
    · simp [Redis.create, he] at h
      exact hd h.2.2
    · simp [Redis.create, he] at h

/-- C5 witness: the amended theorem evaluated at a concrete record with
default TTL 60, at expirations 0 and 5. -/
theorem redis_create_expiration_witness :
    (Redis.create exRedis exRd 7 0).1 = RedisCommand.setEx "7" ["7"] 60 ∧
    (Redis.create exRedis exRd 7 5).1 = RedisCommand.setEx "7" ["7"] 5 ∧
    (5 : Nat) ≠ 0 :=
  ⟨(redis_create_expiration exRedis exRd 7 0).1 rfl,
   (redis_create_expiration exRedis exRd 7 5).2.1 (by decide),
   (redis_create_expiration exRedis exRd 7 5).2.2 "7" ["7"] 5 (by decide) rfl⟩

/-- C3 counterexample: with both setup environments failing, the
structured-store connection would fail with `CreateSessionError`, yet
`Handler::create_connections` returns the volatile store's wrapped error
and its trace holds only the volatile connection step — the volatile
store is connected first, not the structured store. -/
theorem handler_create_connections_counterexample :
    (Scylla.create_connections exSenvBad).2 =
      Except.error (ScyllaError.CreateSessionError "scylla refused") ∧
    Handler.create_connections exRenvBad exSenvBad =
      ([ConnStep.redisConnect],
        Except.error (HandlerError.RedisError (RedisError.CreateClientError "redis refused"))) :=
  ⟨rfl, rfl⟩

/-- C3 (amended): `Handler::create_connections` establishes the
volatile-store (Redis) connection first and the structured-store (Scylla)
connection second; if either establishment fails, the whole operation
fails with that store's error wrapped in the corresponding
`HandlerError` variant, and no Handler is constructed. -/
theorem handler_create_connections_order (renv : RedisSetupEnv α) (senv : ScyllaSetupEnv α ρ) :
    (∀ e, Redis.create_connections renv = Except.error e →
      Handler.create_connections renv senv =
        ([ConnStep.redisConnect], Except.error (HandlerError.RedisError e))) ∧
    (∀ redis e, Redis.create_connections renv = Except.ok redis →
      (Scylla.create_connections senv).2 = Except.error e →
      Handler.create_connections renv senv =
        ([ConnStep.redisConnect, ConnStep.scyllaConnect],
          Except.error (HandlerError.ScyllaError e))) ∧
    (∀ redis scylla, Redis.create_connections renv = Except.ok redis →
      (Scylla.create_connections senv).2 = Except.ok scylla →
      Handler.create_connections renv senv =
        ([ConnStep.redisConnect, ConnStep.scyllaConnect], Except.ok ⟨redis, scylla⟩)) := by
  refine ⟨?_, ?_, ?_⟩ <;> intros <;> simp_all [Handler.create_connections]

/-- C3 witness: the amended theorem at concrete environments covering the
volatile failure, the structured failure, and the success case. -/
theorem handler_create_connections_order_witness :
    Handler.create_connections exRenvBad exSenvOk =
      ([ConnStep.redisConnect],
        Except.error (HandlerError.RedisError (RedisError.CreateClientError "redis refused"))) ∧
    Handler.create_connections exRenvOk exSenvBad =
      ([ConnStep.redisConnect, ConnStep.scyllaConnect],
        Except.error (HandlerError.ScyllaError (ScyllaError.CreateSessionError "scylla refused"))) ∧
    Handler.create_connections exRenvOk exSenvOk =
      ([ConnStep.redisConnect, ConnStep.scyllaConnect],
        Except.ok ⟨exRedis, ⟨fun _ => Except.ok (Query.Raw "Q"), fun _ => Except.ok ⟨some [1, 0]⟩⟩⟩) :=
  ⟨(handler_create_connections_order exRenvBad exSenvOk).1
      (RedisError.CreateClientError "redis refused") rfl,
   (handler_create_connections_order exRenvOk exSenvBad).2.1 exRedis
      (ScyllaError.CreateSessionError "scylla refused") rfl rfl,
   (handler_create_connections_order exRenvOk exSenvOk).2.2 exRedis
      ⟨fun _ => Except.ok (Query.Raw "Q"), fun _ => Except.ok ⟨some [1, 0]⟩⟩ rfl rfl⟩

/-- A structured store resolving to raw text, whose session rejects every
call. -/
def exScyllaRawFail : Scylla Nat Nat where
  get_query := fun _ => Except.ok (Query.Raw "Q")
  session := fun _ => Except.error "scylla down"

/-- C6: `Scylla::create` returns exactly `InvalidQuery` when query
resolution fails, with no statement executed (empty trace); when
resolution succeeds, an execution failure yields `CreateError` on the
precompiled path and `QueryError` on the raw path. -/
theorem scylla_create_errors (self : Scylla α ρ) (data : α) :
    (∀ e, self.get_query Kind.Create = Except.error e →
      Scylla.create self data = ([], Except.error ScyllaError.InvalidQuery)) ∧
    (∀ s e, self.get_query Kind.Create = Except.ok (Query.Prepared s) →
      self.session (SessionCall.execute s (BoundParams.fullRecord data)) = Except.error e →
      Scylla.create self data =
        ([SessionCall.execute s (BoundParams.fullRecord data)],
          Except.error (ScyllaError.CreateError e))) ∧
    (∀ s e, self.get_query Kind.Create = Except.ok (Query.Raw s) →
      self.session (SessionCall.query s (BoundParams.fullRecord data)) = Except.error e →
      Scylla.create self data =
        ([SessionCall.query s (BoundParams.fullRecord data)],
          Except.error (ScyllaError.QueryError e))) := by
  refine ⟨?_, ?_, ?_⟩ <;> intros <;> simp_all [Scylla.create]

/-- C6 witness: the theorem at three concrete structured stores covering
failed resolution, a failing prepared execution, and a failing raw
execution. -/
theorem scylla_create_errors_witness :
    Scylla.create exScyllaNoQuery 3 = ([], Except.error ScyllaError.InvalidQuery) ∧
    Scylla.create exScyllaExecFail 3 =
      ([SessionCall.execute "P" (BoundParams.fullRecord 3)],
        Except.error (ScyllaError.CreateError "scylla down")) ∧
    Scylla.create exScyllaRawFail 3 =
      ([SessionCall.query "Q" (BoundParams.fullRecord 3)],
        Except.error (ScyllaError.QueryError "scylla down")) :=
  ⟨(scylla_create_errors exScyllaNoQuery 3).1
      (ScyllaError.QueryPreparationError "missing") rfl,
   (scylla_create_errors exScyllaExecFail 3).2.1 "P" "scylla down" rfl rfl,
   (scylla_create_errors exScyllaRawFail 3).2.2 "Q" "scylla down" rfl rfl⟩

/-- C7: `Scylla::delete` and `Scylla::update` bind only the record's
identifier as the single statement parameter on every issued call; every
possible outcome of either operation is success, `InvalidQuery`, or
`DeleteError`, and `update` never produces `UpdateError`; moreover every
session execution failure — on the precompiled and on the raw path of
both operations — is reported as `DeleteError` carrying that failure's
detail. -/
theorem scylla_delete_update_binding (self : Scylla α ρ) (sd : ScyllaData α ρ) (data : α) :
    (∀ c, c ∈ (Scylla.delete self sd data).1 →
      callParams c = BoundParams.idOnly (sd.id data)) ∧
    (∀ c, c ∈ (Scylla.update self sd data).1 →
      callParams c = BoundParams.idOnly (sd.id data)) ∧
    ((Scylla.delete self sd data).2 = Except.ok () ∨
      (Scylla.delete self sd data).2 = Except.error ScyllaError.InvalidQuery ∨
      ∃ d, (Scylla.delete self sd data).2 = Except.error (ScyllaError.DeleteError d)) ∧
    ((Scylla.update self sd data).2 = Except.ok () ∨
      (Scylla.update self sd data).2 = Except.error ScyllaError.InvalidQuery ∨
      ∃ d, (Scylla.update self sd data).2 = Except.error (ScyllaError.DeleteError d)) ∧
    (∀ d, (Scylla.update self sd data).2 ≠ Except.error (ScyllaError.UpdateError d)) ∧
    (∀ s e, self.get_query Kind.Delete = Except.ok (Query.Prepared s) →
      self.session (SessionCall.execute s (BoundParams.idOnly (sd.id data))) = Except.error e →
      Scylla.delete self sd data =
        ([SessionCall.execute s (BoundParams.idOnly (sd.id data))],
          Except.error (ScyllaError.DeleteError e))) ∧
    (∀ s e, self.get_query Kind.Delete = Except.ok (Query.Raw s) →
      self.session (SessionCall.query s (BoundParams.idOnly (sd.id data))) = Except.error e →
      Scylla.delete self sd data =
        ([SessionCall.query s (BoundParams.idOnly (sd.id data))],
          Except.error (ScyllaError.DeleteError e))) ∧
    (∀ s e, self.get_query Kind.Update = Except.ok (Query.Prepared s) →
      self.session (SessionCall.execute s (BoundParams.idOnly (sd.id data))) = Except.error e →
      Scylla.update self sd data =
        ([SessionCall.execute s (BoundParams.idOnly (sd.id data))],
          Except.error (ScyllaError.DeleteError e))) ∧
    (∀ s e, self.get_query Kind.Update = Except.ok (Query.Raw s) →
      self.session (SessionCall.query s (BoundParams.idOnly (sd.id data))) = Except.error e →
      Scylla.update self sd data =
        ([SessionCall.query s (BoundParams.idOnly (sd.id data))],
          Except.error (ScyllaError.DeleteError e))) := by
  refine ⟨?_, ?_, ?_, ?_, ?_, ?_, ?_, ?_, ?_⟩
  · intro c hc
    rcases hq : self.get_query Kind.Delete with e | q
    · simp [Scylla.delete, hq] at hc
    · rcases q with s | s <;> simp [Scylla.delete, hq] at hc <;> simp [hc, callParams]
  · intro c hc
    rcases hq : self.get_query Kind.Update with e | q
    · simp [Scylla.update, hq] at hc
    · rcases q with s | s <;> simp [Scylla.update, hq] at hc <;> simp [hc, callParams]
  · rcases hq : self.get_query Kind.Delete with e | q
    · simp [Scylla.delete, hq]
    · rcases q with s | s <;> simp only [Scylla.delete, hq] <;> split <;> simp
  · rcases hq : self.get_query Kind.Update with e | q
    · simp [Scylla.update, hq]
    · rcases q with s | s <;> simp only [Scylla.update, hq] <;> split <;> simp
  · intro d
    rcases hq : self.get_query Kind.Update with e | q
    · simp [Scylla.update, hq]
    · rcases q with s | s <;> simp only [Scylla.update, hq] <;> split <;> simp
  · intro s e hq hs
    simp_all [Scylla.delete]
  · intro s e hq hs
    simp_all [Scylla.delete]
  · intro s e hq hs
    simp_all [Scylla.update]
  · intro s e hq hs
    simp_all [Scylla.update]

/-- C7 witness: the theorem at concrete stores whose execution fails on
the raw path and on the precompiled path — both operations issue one
id-bound call and report exactly `DeleteError` with the session's
failure detail — plus the outcome bound and the `UpdateError`
impossibility at the raw-failing store. -/
theorem scylla_delete_update_binding_witness :
    ((SessionCall.query "Q" (BoundParams.idOnly "3") : SessionCall Nat) ∈
        (Scylla.delete exScyllaRawFail exSd 3).1 →
      callParams (SessionCall.query "Q" (BoundParams.idOnly "3") : SessionCall Nat) =
        BoundParams.idOnly (exSd.id 3)) ∧
    ((Scylla.update exScyllaRawFail exSd 3).2 = Except.ok () ∨
      (Scylla.update exScyllaRawFail exSd 3).2 = Except.error ScyllaError.InvalidQuery ∨
      ∃ d, (Scylla.update exScyllaRawFail exSd 3).2 = Except.error (ScyllaError.DeleteError d)) ∧
    (Scylla.update exScyllaRawFail exSd 3).2 ≠ Except.error (ScyllaError.UpdateError "scylla down") ∧
    Scylla.delete exScyllaExecFail exSd 3 =
      ([SessionCall.execute "P" (BoundParams.idOnly "3")],
        Except.error (ScyllaError.DeleteError "scylla down")) ∧
    Scylla.delete exScyllaRawFail exSd 3 =
      ([SessionCall.query "Q" (BoundParams.idOnly "3")],
        Except.error (ScyllaError.DeleteError "scylla down")) ∧
    Scylla.update exScyllaExecFail exSd 3 =
      ([SessionCall.execute "P" (BoundParams.idOnly "3")],
        Except.error (ScyllaError.DeleteError "scylla down")) ∧
    Scylla.update exScyllaRawFail exSd 3 =
      ([SessionCall.query "Q" (BoundParams.idOnly "3")],
        Except.error (ScyllaError.DeleteError "scylla down")) :=
  ⟨(scylla_delete_update_binding exScyllaRawFail exSd 3).1
      (SessionCall.query "Q" (BoundParams.idOnly "3")),
   (scylla_delete_update_binding exScyllaRawFail exSd 3).2.2.2.1,
   (scylla_delete_update_binding exScyllaRawFail exSd 3).2.2.2.2.1 "scylla down",
   (scylla_delete_update_binding exScyllaExecFail exSd 3).2.2.2.2.2.1
      "P" "scylla down" rfl rfl,
   (scylla_delete_update_binding exScyllaRawFail exSd 3).2.2.2.2.2.2.1
      "Q" "scylla down" rfl rfl,
   (scylla_delete_update_binding exScyllaExecFail exSd 3).2.2.2.2.2.2.2.1
      "P" "scylla down" rfl rfl,
   (scylla_delete_update_binding exScyllaRawFail exSd 3).2.2.2.2.2.2.2.2
      "Q" "scylla down" rfl rfl⟩

/-- Whether a construction outcome is a `CreateSessionError`. -/
def isCreateSessionErrorResult : Except ScyllaError (Scylla α ρ) → Bool
  | Except.error (ScyllaError.CreateSessionError _) => true
  | _ => false

/-- C8 counterexample: with the keyspace-provisioning step failing with
`QueryError`, `Scylla::create_connections` aborts with that very
`QueryError` propagated unchanged — not with a `CreateSessionError` as
the claim states. -/
theorem scylla_create_connections_counterexample :
    exSenvKeyspaceFail.create_keyspace = Except.error (ScyllaError.QueryError "keyspace boom") ∧
    (Scylla.create_connections exSenvKeyspaceFail).2 =
      Except.error (ScyllaError.QueryError "keyspace boom") ∧
    isCreateSessionErrorResult (Scylla.create_connections exSenvKeyspaceFail).2 = false :=
  ⟨rfl, rfl, rfl⟩

/-- C8 (amended): `Scylla::create_connections` builds the session, then
runs keyspace provisioning, table provisioning, and statement
precompilation, in that order; a session-build failure aborts with
`CreateSessionError`, while a failure of any of the three post-session
steps aborts construction with that step's own error propagated
unchanged. -/
theorem scylla_create_connections_order (env : ScyllaSetupEnv α ρ) :
    (∀ e, env.build_session = Except.error e →
      Scylla.create_connections env =
        ([SetupStep.buildSession], Except.error (ScyllaError.CreateSessionError e))) ∧
    (∀ session e, env.build_session = Except.ok session →
      env.create_keyspace = Except.error e →
      Scylla.create_connections env =
        ([SetupStep.buildSession, SetupStep.createKeyspace], Except.error e)) ∧
    (∀ session e, env.build_session = Except.ok session →
      env.create_keyspace = Except.ok () →
      env.create_tables = Except.error e →
      Scylla.create_connections env =
        ([SetupStep.buildSession, SetupStep.createKeyspace, SetupStep.createTables],
          Except.error e)) ∧
    (∀ session e, env.build_session = Except.ok session →
      env.create_keyspace = Except.ok () →
      env.create_tables = Except.ok () →
      env.prepare_queries = Except.error e →
      Scylla.create_connections env =
        ([SetupStep.buildSession, SetupStep.createKeyspace, SetupStep.createTables,
          SetupStep.prepareQueries], Except.error e)) ∧
    (∀ session queries, env.build_session = Except.ok session →
      env.create_keyspace = Except.ok () →
      env.create_tables = Except.ok () →
      env.prepare_queries = Except.ok queries →
      Scylla.create_connections env =
        ([SetupStep.buildSession, SetupStep.createKeyspace, SetupStep.createTables,
          SetupStep.prepareQueries], Except.ok ⟨queries, session⟩)) := by
  refine ⟨?_, ?_, ?_, ?_, ?_⟩ <;> intros <;> simp_all [Scylla.create_connections]

/-- C8 witness: the amended theorem at concrete environments covering the
session-build failure, the keyspace failure, and full success. -/
theorem scylla_create_connections_order_witness :
    Scylla.create_connections exSenvBad =
      ([SetupStep.buildSession], Except.error (ScyllaError.CreateSessionError "scylla refused")) ∧
    Scylla.create_connections exSenvKeyspaceFail =
      ([SetupStep.buildSession, SetupStep.createKeyspace],
        Except.error (ScyllaError.QueryError "keyspace boom")) ∧
    Scylla.create_connections exSenvOk =
      ([SetupStep.buildSession, SetupStep.createKeyspace, SetupStep.createTables,
        SetupStep.prepareQueries],
        Except.ok ⟨fun _ => Except.ok (Query.Raw "Q"), fun _ => Except.ok ⟨some [1, 0]⟩⟩) :=
  ⟨(scylla_create_connections_order exSenvBad).1 "scylla refused" rfl,
   (scylla_create_connections_order exSenvKeyspaceFail).2.1
      (fun _ => Except.ok ⟨some []⟩) (ScyllaError.QueryError "keyspace boom") rfl rfl,
   (scylla_create_connections_order exSenvOk).2.2.2.2
      (fun _ => Except.ok ⟨some [1, 0]⟩) (fun _ => Except.ok (Query.Raw "Q")) rfl rfl rfl rfl⟩

/-- C1: each Handler write operation (`create`, `delete`, `udpate`)
performs the structured-store step first and the volatile-store step
second, sequentially: a structured-store failure is returned with no
volatile command ever issued, and a volatile failure after a structured
success is returned while the trace still holds exactly the structured
effects followed by the one volatile command — no rollback. -/
theorem handler_write_order_and_failfast (self : Handler α ρ) (sd : ScyllaData α ρ)
    (rd : RedisData α) (data : α) (expiration : Nat) :
    ((∀ e, (Scylla.create self.scylla data).2 = Except.error e →
        Handler.create self rd data expiration =
          ((Scylla.create self.scylla data).1.map Effect.scylla,
            Except.error (HandlerError.ScyllaError e))) ∧
      (∀ e, (Scylla.create self.scylla data).2 = Except.ok () →
        (Redis.create self.redis rd data expiration).2 = Except.error e →
        Handler.create self rd data expiration =
          ((Scylla.create self.scylla data).1.map Effect.scylla ++
              [Effect.redis (Redis.create self.redis rd data expiration).1],
            Except.error (HandlerError.RedisError e))) ∧
      ((Scylla.create self.scylla data).2 = Except.ok () →
        (Redis.create self.redis rd data expiration).2 = Except.ok () →
        Handler.create self rd data expiration =
          ((Scylla.create self.scylla data).1.map Effect.scylla ++
              [Effect.redis (Redis.create self.redis rd data expiration).1],
            Except.ok ()))) ∧
    ((∀ e, (Scylla.delete self.scylla sd data).2 = Except.error e →
        Handler.delete self sd rd data =
          ((Scylla.delete self.scylla sd data).1.map Effect.scylla,
            Except.error (HandlerError.ScyllaError e))) ∧
      (∀ e, (Scylla.delete self.scylla sd data).2 = Except.ok () →
        (Redis.delete self.redis rd data).2 = Except.error e →
        Handler.delete self sd rd data =
          ((Scylla.delete self.scylla sd data).1.map Effect.scylla ++
              [Effect.redis (Redis.delete self.redis rd data).1],
            Except.error (HandlerError.RedisError e))) ∧
      ((Scylla.delete self.scylla sd data).2 = Except.ok () →
        (Redis.delete self.redis rd data).2 = Except.ok () →
        Handler.delete self sd rd data =
          ((Scylla.delete self.scylla sd data).1.map Effect.scylla ++
              [Effect.redis (Redis.delete self.redis rd data).1],
            Except.ok ()))) ∧
    ((∀ e, (Scylla.update self.scylla sd data).2 = Except.error e →
        Handler.udpate self sd rd data =
          ((Scylla.update self.scylla sd data).1.map Effect.scylla,
            Except.error (HandlerError.ScyllaError e))) ∧
      (∀ e, (Scylla.update self.scylla sd data).2 = Except.ok () →
        (Redis.update self.redis rd data).2 = Except.error e →
        Handler.udpate self sd rd data =
          ((Scylla.update self.scylla sd data).1.map Effect.scylla ++
              [Effect.redis (Redis.update self.redis rd data).1],
            Except.error (HandlerError.RedisError e))) ∧
      ((Scylla.update self.scylla sd data).2 = Except.ok () →
        (Redis.update self.redis rd data).2 = Except.ok () →
        Handler.udpate self sd rd data =
          ((Scylla.update self.scylla sd data).1.map Effect.scylla ++
              [Effect.redis (Redis.update self.redis rd data).1],
            Except.ok ()))) := by
  refine ⟨⟨?_, ?_, ?_⟩, ⟨?_, ?_, ?_⟩, ⟨?_, ?_, ?_⟩⟩ <;> intros <;>
    simp_all [Handler.create, Handler.delete, Handler.udpate]

/-- C1 witness: the theorem at concrete handlers covering a structured
failure on `create`, a volatile failure on `delete`, and full success on
`udpate`. -/
theorem handler_write_order_and_failfast_witness :
    Handler.create ⟨exRedis, exScyllaNoQuery⟩ exRd 3 5 =
      ([], Except.error (HandlerError.ScyllaError ScyllaError.InvalidQuery)) ∧
    Handler.delete ⟨exRedisDown, exScyllaRaw⟩ exSd exRd 3 =
      ([Effect.scylla (SessionCall.query "Q" (BoundParams.idOnly "3")),
        Effect.redis (RedisCommand.del "3")],
        Except.error (HandlerError.RedisError (RedisError.DeleteError "redis down"))) ∧
    Handler.udpate ⟨exRedis, exScyllaRaw⟩ exSd exRd 3 =
      ([Effect.scylla (SessionCall.query "Q" (BoundParams.idOnly "3")),
        Effect.redis (RedisCommand.setEx "3" ["3"] 60)],
        Except.ok ()) :=
  ⟨(handler_write_order_and_failfast ⟨exRedis, exScyllaNoQuery⟩ exSd exRd 3 5).1.1
      ScyllaError.InvalidQuery rfl,
   (handler_write_order_and_failfast ⟨exRedisDown, exScyllaRaw⟩ exSd exRd 3 5).2.1.2.1
      (RedisError.DeleteError "redis down") rfl rfl,
   (handler_write_order_and_failfast ⟨exRedis, exScyllaRaw⟩ exSd exRd 3 5).2.2.2.2 rfl rfl⟩

/-- C2: `Handler::get` races the structured-store get against the
volatile-store get and returns the outcome, success or failure, of
whichever branch completes first; the losing branch's result is
discarded — the overall result does not depend on the losing store's
behaviour. -/
theorem handler_get_race (self : Handler α ρ) (sd : ScyllaData α ρ)
    (scylla_id redis_key : String) (scyllaTime redisTime : Nat) (tieBreak : RaceWinner) :
    (scyllaTime < redisTime →
      Handler.get self sd scylla_id redis_key scyllaTime redisTime tieBreak =
        mapErr HandlerError.ScyllaError (Scylla.get self.scylla sd scylla_id)) ∧
    (redisTime < scyllaTime →
      Handler.get self sd scylla_id redis_key scyllaTime redisTime tieBreak =
        mapErr HandlerError.RedisError (Redis.get self.redis redis_key).2) ∧
    (∀ other : Redis α, scyllaTime < redisTime →
      Handler.get ⟨other, self.scylla⟩ sd scylla_id redis_key scyllaTime redisTime tieBreak =
        Handler.get self sd scylla_id redis_key scyllaTime redisTime tieBreak) ∧
    (∀ other : Scylla α ρ, redisTime < scyllaTime →
      Handler.get ⟨self.redis, other⟩ sd scylla_id redis_key scyllaTime redisTime tieBreak =
        Handler.get self sd scylla_id redis_key scyllaTime redisTime tieBreak) := by
  refine ⟨?_, ?_, ?_, ?_⟩
  · intro h
    simp [Handler.get, selectWinner, h]
  · intro h
    have h2 : ¬ scyllaTime < redisTime := Nat.lt_asymm h
    simp [Handler.get, selectWinner, h, h2]
  · intro other h
    simp [Handler.get, selectWinner, h]
  · intro other h
    have h2 : ¬ scyllaTime < redisTime := Nat.lt_asymm h
    simp [Handler.get, selectWinner, h, h2]

/-- C2 witness: the theorem at a concrete handler whose structured store
succeeds and whose volatile store is down — when the structured branch is
faster the call succeeds, when the volatile branch is faster the call
surfaces the volatile failure although the structured branch would have
succeeded; and swapping the losing store leaves the result unchanged. -/
theorem handler_get_race_witness :
    Handler.get ⟨exRedisDown, exScyllaRaw⟩ exSd "3" "3" 1 2 RaceWinner.scylla =
      Except.ok 1 ∧
    Handler.get ⟨exRedisDown, exScyllaRaw⟩ exSd "3" "3" 2 1 RaceWinner.scylla =
      Except.error (HandlerError.RedisError (RedisError.GetError "redis down")) ∧
    Handler.get ⟨exRedis, exScyllaRaw⟩ exSd "3" "3" 1 2 RaceWinner.scylla =
      Handler.get ⟨exRedisDown, exScyllaRaw⟩ exSd "3" "3" 1 2 RaceWinner.scylla ∧
    Handler.get ⟨exRedisDown, exScyllaNoQuery⟩ exSd "3" "3" 2 1 RaceWinner.scylla =
      Handler.get ⟨exRedisDown, exScyllaRaw⟩ exSd "3" "3" 2 1 RaceWinner.scylla :=
  ⟨(handler_get_race ⟨exRedisDown, exScyllaRaw⟩ exSd "3" "3" 1 2 RaceWinner.scylla).1
      (by decide),
   (handler_get_race ⟨exRedisDown, exScyllaRaw⟩ exSd "3" "3" 2 1 RaceWinner.scylla).2.1
      (by decide),
   (handler_get_race ⟨exRedisDown, exScyllaRaw⟩ exSd "3" "3" 1 2 RaceWinner.scylla).2.2.1
      exRedis (by decide),
   (handler_get_race ⟨exRedisDown, exScyllaRaw⟩ exSd "3" "3" 2 1 RaceWinner.scylla).2.2.2
      exScyllaNoQuery (by decide)⟩

/-- Auxiliary: a successful `collectRows` decodes exactly as many records
as there are input rows. -/
theorem collectRows_length (f : ρ → Option α) :
    ∀ (l : List ρ) (out : List α), collectRows f l = some out → out.length = l.length := by
  intro l
  induction l with
  | nil =>
    intro out h
    simp only [collectRows, Option.some.injEq] at h
    subst h
    rfl
  | cons r rest ih =>
    intro out h
    simp only [collectRows] at h
    cases hf : f r with
    | none =>
      rw [hf] at h
      simp at h
    | some a =>
      rw [hf] at h
      cases hc : collectRows f rest with
      | none =>
        rw [hc] at h
        simp at h
      | some tail =>
        rw [hc] at h
        simp only [Option.some.injEq] at h
        subst h
        simp [ih tail hc]

/-- Auxiliary: `collectRows` fails whenever some input row fails to
decode. -/
theorem collectRows_none (f : ρ → Option α) :
    ∀ (l : List ρ), (∃ r ∈ l, f r = none) → collectRows f l = none := by
  intro l
  induction l with
  | nil =>
    rintro ⟨r, hr, _⟩
    cases hr
  | cons x rest ih =>
    rintro ⟨r, hr, hf⟩
    rcases List.mem_cons.mp hr with h | h
    · subst h
      simp only [collectRows]
      rw [hf]
    · simp only [collectRows]
      cases hx : f x with
      | none => rfl
      | some a => rw [ih ⟨r, h, hf⟩]

/-- C4 counterexample: the session returns the rows [1, 0], row 0 fails
to decode, yet `fetch` with `amount = 1` succeeds with [1] instead of
failing with `RowError`: a decode failure beyond the row limit does not
abort the call, because rows are truncated before being decoded. -/
theorem scylla_fetch_counterexample :
    exSd.from_row 0 = none ∧ (0 : Nat) ∈ [1, 0] ∧
    Scylla.fetch exScyllaRaw exSd [] 1 = Except.ok [1] :=
  ⟨rfl, by decide, rfl⟩

/-- C4 (amended): `Scylla::fetch` uses the built-in default limit 10 when
`ammount` is 0 and `ammount` otherwise; a successful call returns at most
that many records; and if any of the first limit rows of the result set
fails to decode, the whole call fails with `RowError` and no partial
vector is returned — rows beyond the limit are never decoded. -/
theorem scylla_fetch_limit_and_decode (self : Scylla α ρ) (sd : ScyllaData α ρ)
    (query_data : List String) (ammount : Nat) :
    (∀ out, Scylla.fetch self sd query_data ammount = Except.ok out →
      out.length ≤ (if ammount = 0 then 10 else ammount)) ∧
    (∀ q raw_rows, self.get_query Kind.Fetch = Except.ok q →
      Scylla.fetchExecute self q query_data = Except.ok ⟨some raw_rows⟩ →
      (∃ r ∈ raw_rows.take (if ammount = 0 then 10 else ammount), sd.from_row r = none) →
      Scylla.fetch self sd query_data ammount = Except.error ScyllaError.RowError) := by
  constructor
  · intro out h
    simp only [Scylla.fetch] at h
    rcases hq : self.get_query Kind.Fetch with e | q <;> simp only [hq] at h
    · exact absurd h (by simp)
    · rcases hx : Scylla.fetchExecute self q query_data with e | qres <;>
        simp only [hx] at h
      · exact absurd h (by simp)
      · rcases hr : qres.rows with _ | raw_rows <;> simp only [hr] at h
        · exact absurd h (by simp)
        · rcases hc : collectRows sd.from_row
              (raw_rows.take (if ammount = 0 then 10 else ammount)) with _ | typed <;>
            simp only [hc] at h
          · exact absurd h (by simp)
          · simp only [Except.ok.injEq] at h
            subst h
            rw [collectRows_length sd.from_row _ _ hc, List.length_take]
            exact min_le_left _ _
  · intro q raw_rows hq hx hbad
    have hc := collectRows_none sd.from_row _ hbad
    simp [Scylla.fetch, hq, hx, hc]

/-- C4 witness: the amended theorem at a concrete store with result rows
[1, 0] and undecodable row 0 — with `amount = 1` the successful result
has at most 1 record; with `amount = 0` the bad row falls inside the
default limit 10 and the call fails with `RowError`. -/
theorem scylla_fetch_limit_and_decode_witness :
    ([1] : List Nat).length ≤ 1 ∧
    Scylla.fetch exScyllaRaw exSd [] 0 = Except.error ScyllaError.RowError :=
  ⟨(scylla_fetch_limit_and_decode exScyllaRaw exSd [] 1).1 [1] rfl,
   (scylla_fetch_limit_and_decode exScyllaRaw exSd [] 0).2 (Query.Raw "Q") [1, 0]
      rfl rfl ⟨0, by decide, rfl⟩⟩
